import Mathlib

/-!
Verification of the stateful weather-lookup tool (`get_weather_stateful` in
`agent.py`) of the Agentic-System-using-Google-ADK repository.

The tool is a pure computation over the user-supplied city string and the
session state bag: it normalizes the city, looks it up in a fixed three-city
table, formats a unit-aware report (reading the preferred unit from state),
and on success writes the original city text back into state.  We embed it as
a function `String → StateMap → ToolResult × StateMap` returning the
structured result together with the state after the call.
-/

namespace WeatherAgent

/-- Session state: a string-keyed map of string values, embedded as an
association list read from the front.  `get`/`set` mirror Python dict
subscript read and assignment. -/
abbrev StateMap := List (String × String)

/-- Read a key (Python `dict.get(key)` returning `None` when absent). -/
def StateMap.get : StateMap → String → Option String
  | [], _ => none
  | (k, v) :: rest, key => if key = k then some v else StateMap.get rest key

/-- Read a key with a default (Python `dict.get(key, default)`). -/
def StateMap.getD (s : StateMap) (key dflt : String) : String :=
  (StateMap.get s key).getD dflt

/-- Write a key (Python `dict[key] = val`): overwrite the binding when the
key is present, append a fresh binding otherwise. -/
def StateMap.set : StateMap → String → String → StateMap
  | [], key, val => [(key, val)]
  | (k, v) :: rest, key, val =>
      if key = k then (k, val) :: rest else (k, v) :: StateMap.set rest key val

/-- `city.lower().replace(" ", "")`: ASCII lower-casing of every character
followed by removal of every space character. -/
def cityNormalized (city : String) : String :=
  String.mk ((city.data.map Char.toLower).filter (fun c => c != ' '))

/-- Python `str.capitalize()`: the first character upper-cased and every
remaining character lower-cased (ASCII). -/
def pyCapitalize (s : String) : String :=
  match s.data with
  | [] => ""
  | c :: cs => String.mk (Char.toUpper c :: cs.map Char.toLower)

/-- One entry of the mock weather table: a Celsius temperature (an integer
in the source literal) and a condition string. -/
structure WeatherData where
  temp_c : ℤ
  condition : String
deriving DecidableEq

/-- The fixed `mock_weather_db` literal of `get_weather_stateful`. -/
def mock_weather_db : List (String × WeatherData) :=
  [("newyork", { temp_c := 25, condition := "sunny" }),
   ("london", { temp_c := 15, condition := "cloudy" }),
   ("tokyo", { temp_c := 18, condition := "light rain" })]

/-- Python dict lookup (`key in db` / `db[key]`) on the literal table. -/
def dbFind : List (String × WeatherData) → String → Option WeatherData
  | [], _ => none
  | (k, v) :: rest, key => if key = k then some v else dbFind rest key

/-- `(temp_c * 9/5) + 32` represented exactly in tenths of a degree: for an
integer `temp_c` the Python float expression is exact and has one decimal
digit, so its value times 10 is the integer `temp_c * 18 + 320`. -/
def fahrenheitTenths (temp_c : ℤ) : ℤ := temp_c * 18 + 320

/-- `temp_c` itself, in tenths of a degree. -/
def celsiusTenths (temp_c : ℤ) : ℤ := temp_c * 10

/-- Round a value given in tenths of a degree to the nearest integer, ties
to even — the rounding Python float formatting applies. -/
def roundTenthsHalfEven (t : ℤ) : ℤ :=
  let q := Int.fdiv t 10
  let r := Int.fmod t 10
  if r < 5 then q else if 5 < r then q + 1 else if q % 2 = 0 then q else q + 1

/-- The `.0f` format specifier applied to a value given in tenths of a
degree: round to the nearest integer and print its decimal digits. -/
def formatTenths (t : ℤ) : String := toString (roundTenthsHalfEven t)

/-- The structured result dict returned by the tool: a `status` field that is
`"success"` or `"error"`, a `report` field present on success, and an
`error_message` field present on error. -/
structure ToolResult where
  status : String
  report : Option String := none
  error_message : Option String := none
deriving DecidableEq

/-- `get_weather_stateful` from `agent.py`: reads the preferred unit from
state (default `"Celsius"`), normalizes the city, looks it up in
`mock_weather_db`; on a hit it formats the unit-aware report and writes the
original city text under `"last_city_checked_stateful"`; on a miss it
returns the error result and leaves the state untouched.  The pair is the
returned dict together with the state after the call. -/
def get_weather_stateful (city : String) (state : StateMap) : ToolResult × StateMap :=
  let preferred_unit := StateMap.getD state "user_preference_temperature_unit" "Celsius"
  let city_normalized := cityNormalized city
  match dbFind mock_weather_db city_normalized with
  | some data =>
      let tvu : ℤ × String :=
        if preferred_unit = "Fahrenheit" then (fahrenheitTenths data.temp_c, "°F")
        else (celsiusTenths data.temp_c, "°C")
      let report := "The weather in " ++ pyCapitalize city ++ " is " ++ data.condition ++
          " with a temperature of " ++ formatTenths tvu.1 ++ tvu.2 ++ "."
      ({ status := "success", report := some report },
        StateMap.set state "last_city_checked_stateful" city)
  | none =>
      ({ status := "error",
         error_message := some ("Sorry, I don\x27t have weather information for \x27" ++ city ++ "\x27.") },
        state)

/-! ### Basic lemmas about the embedding -/

/-- The scaled Fahrenheit value agrees with the source formula
`(temp_c * 9/5) + 32`: it is exactly ten times that rational. -/
theorem fahrenheitTenths_eq_formula (t : ℤ) :
    ((fahrenheitTenths t : ℚ)) = ((t : ℚ) * 9 / 5 + 32) * 10 := by
  simp [fahrenheitTenths]
  ring

/-- The printed integer is a nearest integer to the tenths value: it is
within half a unit (five tenths) of it. -/
theorem roundTenthsHalfEven_nearest (t : ℤ) :
    10 * roundTenthsHalfEven t - t ≤ 5 ∧ t - 10 * roundTenthsHalfEven t ≤ 5 := by
  have hadd : 10 * Int.fdiv t 10 + Int.fmod t 10 = t := Int.fdiv_add_fmod t 10
  have h0 : 0 ≤ Int.fmod t 10 := Int.fmod_nonneg' t (by decide)
  have h10 : Int.fmod t 10 < 10 := Int.fmod_lt_of_pos t (by decide)
  simp only [roundTenthsHalfEven]
  split_ifs <;> omega

theorem StateMap.get_set_self (s : StateMap) (k v : String) :
    StateMap.get (StateMap.set s k v) k = some v := by
  induction s with
  | nil => simp [StateMap.set, StateMap.get]
  | cons hd tl ih =>
      obtain ⟨a, b⟩ := hd
      by_cases h : k = a <;> simp [StateMap.set, StateMap.get, h, ih]

theorem StateMap.get_set_ne (s : StateMap) (k k' v : String) (h : k' ≠ k) :
    StateMap.get (StateMap.set s k v) k' = StateMap.get s k' := by
  induction s with
  | nil => simp [StateMap.set, StateMap.get, h]
  | cons hd tl ih =>
      obtain ⟨a, b⟩ := hd
      by_cases h1 : k = a
      · subst h1
        simp [StateMap.set, StateMap.get, h]
      · by_cases h2 : k' = a <;> simp [StateMap.set, StateMap.get, h1, h2, ih]

theorem StateMap.set_set_self (s : StateMap) (k v : String) :
    StateMap.set (StateMap.set s k v) k v = StateMap.set s k v := by
  induction s with
  | nil => simp [StateMap.set]
  | cons hd tl ih =>
      obtain ⟨a, b⟩ := hd
      by_cases h : k = a <;> simp [StateMap.set, h, ih]

theorem StateMap.getD_set_ne (s : StateMap) (k k' v dflt : String) (h : k' ≠ k) :
    StateMap.getD (StateMap.set s k v) k' dflt = StateMap.getD s k' dflt := by
  unfold StateMap.getD
  rw [StateMap.get_set_ne s k k' v h]

/-- `dbFind` on the three-entry literal table is the evident nested
conditional. -/
theorem dbFind_mock (key : String) :
    dbFind mock_weather_db key =
      if key = "newyork" then some ⟨25, "sunny"⟩
      else if key = "london" then some ⟨15, "cloudy"⟩
      else if key = "tokyo" then some ⟨18, "light rain"⟩
      else none := rfl

/-- A key hits the table exactly when it is one of the three entries. -/
theorem dbFind_isSome_iff (key : String) :
    (dbFind mock_weather_db key).isSome = true ↔ key ∈ ["newyork", "london", "tokyo"] := by
  rw [dbFind_mock]
  by_cases h1 : key = "newyork" <;> by_cases h2 : key = "london" <;>
    by_cases h3 : key = "tokyo" <;> simp [h1, h2, h3]

/-! ### Branch characterizations of the tool -/

/-- Hit with Fahrenheit preference: the report converts and labels `°F`,
and the original city text is written to `last_city_checked_stateful`. -/
theorem gws_found_f (city : String) (state : StateMap) (d : WeatherData)
    (h : dbFind mock_weather_db (cityNormalized city) = some d)
    (hu : StateMap.getD state "user_preference_temperature_unit" "Celsius" = "Fahrenheit") :
    get_weather_stateful city state =
      ({ status := "success",
         report := some ("The weather in " ++ pyCapitalize city ++ " is " ++ d.condition ++
           " with a temperature of " ++ formatTenths (fahrenheitTenths d.temp_c) ++ "°F" ++ ".") },
       StateMap.set state "last_city_checked_stateful" city) := by
  simp only [get_weather_stateful]
  rw [h, hu]
  simp

/-- Hit with any non-Fahrenheit preference (the Celsius default branch). -/
theorem gws_found_c (city : String) (state : StateMap) (d : WeatherData)
    (h : dbFind mock_weather_db (cityNormalized city) = some d)
    (hu : StateMap.getD state "user_preference_temperature_unit" "Celsius" ≠ "Fahrenheit") :
    get_weather_stateful city state =
      ({ status := "success",
         report := some ("The weather in " ++ pyCapitalize city ++ " is " ++ d.condition ++
           " with a temperature of " ++ formatTenths (celsiusTenths d.temp_c) ++ "°C" ++ ".") },
       StateMap.set state "last_city_checked_stateful" city) := by
  simp only [get_weather_stateful]
  rw [h]
  simp [hu]

/-- Miss: the structured error result, and the state is returned as it
came in. -/
theorem gws_notfound (city : String) (state : StateMap)
    (h : dbFind mock_weather_db (cityNormalized city) = none) :
    get_weather_stateful city state =
      ({ status := "error",
         error_message := some ("Sorry, I don\x27t have weather information for \x27" ++ city ++ "\x27.") },
       state) := by
  simp only [get_weather_stateful]
  rw [h]

/-- On a table hit the status is `"success"` (whatever the unit preference)
and the state is the input state with the city written under
`last_city_checked_stateful`. -/
theorem gws_status_found (city : String) (state : StateMap) (d : WeatherData)
    (h : dbFind mock_weather_db (cityNormalized city) = some d) :
    (get_weather_stateful city state).1.status = "success" ∧
    (get_weather_stateful city state).2 =
      StateMap.set state "last_city_checked_stateful" city := by
  by_cases hu : StateMap.getD state "user_preference_temperature_unit" "Celsius" = "Fahrenheit"
  · rw [gws_found_f city state d h hu]
    exact ⟨rfl, rfl⟩
  · rw [gws_found_c city state d h hu]
    exact ⟨rfl, rfl⟩

/-- On a miss the status is `"error"` and the state comes back unchanged. -/
theorem gws_status_notfound (city : String) (state : StateMap)
    (h : dbFind mock_weather_db (cityNormalized city) = none) :
    (get_weather_stateful city state).1.status = "error" ∧
    (get_weather_stateful city state).2 = state := by
  rw [gws_notfound city state h]
  exact ⟨rfl, rfl⟩

/-- `sub` occurs as a contiguous substring of `s`. -/
def containsSub (s sub : String) : Prop := ∃ pre post, s = pre ++ sub ++ post

/-- Capitalization as claim C2 words it: only the first character is
upper-cased and every other character is left unchanged. -/
def capFirstUpperRestUnchanged (s : String) : String :=
  match s.data with
  | [] => ""
  | c :: cs => String.mk (Char.toUpper c :: cs)

/-- `pyCapitalize` in take/drop form: the first character upper-cased
followed by the remaining characters lower-cased. -/
theorem pyCapitalize_take_drop (s : String) :
    pyCapitalize s =
      String.mk ((s.data.take 1).map Char.toUpper ++ (s.data.drop 1).map Char.toLower) := by
  cases hs : s.data with
  | nil => simp [pyCapitalize, hs]
  | cons c cs => simp [pyCapitalize, hs]

/-! ### The claims -/

/-- Claim C1: for every city string and every session state, the call
succeeds exactly when the normalized city key is one of `"newyork"`,
`"london"`, `"tokyo"`; otherwise it returns an error result and the state
after the call equals the state before. -/
theorem claim_C1 (city : String) (state : StateMap) :
    ((get_weather_stateful city state).1.status = "success" ↔
      cityNormalized city ∈ ["newyork", "london", "tokyo"]) ∧
    (cityNormalized city ∉ ["newyork", "london", "tokyo"] →
      (get_weather_stateful city state).1.status = "error" ∧
      (get_weather_stateful city state).2 = state) := by
  cases hd : dbFind mock_weather_db (cityNormalized city) with
  | none =>
      obtain ⟨hs, hst⟩ := gws_status_notfound city state hd
      have hmem : cityNormalized city ∉ ["newyork", "london", "tokyo"] := by
        intro hm
        have := (dbFind_isSome_iff (cityNormalized city)).2 hm
        rw [hd] at this
        simp at this
      constructor
      · rw [hs]
        simp [hmem]
      · intro _
        exact ⟨hs, hst⟩
  | some d =>
      obtain ⟨hs, hst⟩ := gws_status_found city state d hd
      have hmem : cityNormalized city ∈ ["newyork", "london", "tokyo"] := by
        have hiff := (dbFind_isSome_iff (cityNormalized city)).1
        rw [hd] at hiff
        exact hiff (by simp)
      constructor
      · rw [hs]
        simp [hmem]
      · intro hn
        exact absurd hmem hn

/-- Claim C1 witness: the unknown city "Paris" yields the error status and
leaves the (empty) state unchanged. -/
theorem claim_C1_witness :
    (get_weather_stateful "Paris" []).1.status = "error" ∧
    (get_weather_stateful "Paris" []).2 = [] :=
  (claim_C1 "Paris" []).2 (by decide)

/-- Claim C2 counterexample: the claim predicts the in-table input
"LONDON" is embedded with only its first character upper-cased and the
rest unchanged, i.e. as "LONDON"; the code lower-cases the tail and
reports "London" instead. -/
theorem claim_C2_counterexample :
    capFirstUpperRestUnchanged "LONDON" = "LONDON" ∧
    (get_weather_stateful "LONDON" []).1.report =
      some "The weather in London is cloudy with a temperature of 15°C." ∧
    (get_weather_stateful "LONDON" []).1.report ≠
      some ("The weather in " ++ capFirstUpperRestUnchanged "LONDON" ++
        " is cloudy with a temperature of 15°C.") := by
  decide

/-- Claim C2 amended: for every city found in the table, the success
report equals "The weather in X is C with a temperature of VU." where X is
the original input with its first character upper-cased and every
remaining character lower-cased (Python `str.capitalize`): e.g. "LONDON"
is embedded as "London" and "New York" as "New york". -/
theorem claim_C2_amended (city : String) (state : StateMap) (d : WeatherData)
    (h : dbFind mock_weather_db (cityNormalized city) = some d) :
    ∃ value unitLabel,
      (get_weather_stateful city state).1.report =
        some ("The weather in " ++
          String.mk ((city.data.take 1).map Char.toUpper ++ (city.data.drop 1).map Char.toLower) ++
          " is " ++ d.condition ++ " with a temperature of " ++ value ++ unitLabel ++ ".") := by
  rw [← pyCapitalize_take_drop]
  by_cases hu : StateMap.getD state "user_preference_temperature_unit" "Celsius" = "Fahrenheit"
  · exact ⟨formatTenths (fahrenheitTenths d.temp_c), "°F", by rw [gws_found_f city state d h hu]⟩
  · exact ⟨formatTenths (celsiusTenths d.temp_c), "°C", by rw [gws_found_c city state d h hu]⟩

/-- Claim C2 amended witness: the concrete report for the input "LONDON". -/
theorem claim_C2_amended_witness :
    ∃ value unitLabel,
      (get_weather_stateful "LONDON" []).1.report =
        some ("The weather in " ++
          String.mk ((("LONDON" : String).data.take 1).map Char.toUpper ++
            (("LONDON" : String).data.drop 1).map Char.toLower) ++
          " is " ++ "cloudy" ++ " with a temperature of " ++ value ++ unitLabel ++ ".") :=
  claim_C2_amended "LONDON" [] ⟨15, "cloudy"⟩ (by decide)

/-- Claim C3: for every city in the table, with the `"Fahrenheit"`
preference the displayed value is `temp_c * 9/5 + 32` rounded to the
nearest integer with unit label `"°F"`, and otherwise `temp_c` with label
`"°C"`.  The second conjunct identifies the scaled integer with the
source's rational formula, the third shows the printed integer is within
half a unit of the exact value, and the last gives the concrete Tokyo
instance: 18 °C converts to a reported 64°F. -/
theorem claim_C3 :
    (∀ (city : String) (state : StateMap) (d : WeatherData),
      dbFind mock_weather_db (cityNormalized city) = some d →
      ((StateMap.getD state "user_preference_temperature_unit" "Celsius" = "Fahrenheit" →
        (get_weather_stateful city state).1.report =
          some ("The weather in " ++ pyCapitalize city ++ " is " ++ d.condition ++
            " with a temperature of " ++ formatTenths (fahrenheitTenths d.temp_c) ++ "°F" ++ ".")) ∧
       (StateMap.getD state "user_preference_temperature_unit" "Celsius" ≠ "Fahrenheit" →
        (get_weather_stateful city state).1.report =
          some ("The weather in " ++ pyCapitalize city ++ " is " ++ d.condition ++
            " with a temperature of " ++ formatTenths (celsiusTenths d.temp_c) ++ "°C" ++ ".")))) ∧
    (∀ t : ℤ, ((fahrenheitTenths t : ℚ)) = ((t : ℚ) * 9 / 5 + 32) * 10) ∧
    (∀ t : ℤ, 10 * roundTenthsHalfEven t - t ≤ 5 ∧ t - 10 * roundTenthsHalfEven t ≤ 5) ∧
    (get_weather_stateful "Tokyo" [("user_preference_temperature_unit", "Fahrenheit")]).1.report =
      some "The weather in Tokyo is light rain with a temperature of 64°F." := by
  refine ⟨?_, fahrenheitTenths_eq_formula, roundTenthsHalfEven_nearest, by decide⟩
  intro city state d h
  constructor
  · intro hu
    rw [gws_found_f city state d h hu]
  · intro hu
    rw [gws_found_c city state d h hu]

/-- Claim C3 witness: the Fahrenheit branch at the concrete input
"London" with the preference set in state. -/
theorem claim_C3_witness :
    (get_weather_stateful "London" [("user_preference_temperature_unit", "Fahrenheit")]).1.report =
      some ("The weather in " ++ pyCapitalize "London" ++ " is " ++ "cloudy" ++
        " with a temperature of " ++ formatTenths (fahrenheitTenths 15) ++ "°F" ++ ".") :=
  (claim_C3.1 "London" [("user_preference_temperature_unit", "Fahrenheit")]
    ⟨15, "cloudy"⟩ (by decide)).1 (by decide)

/-- Claim C4: when the key `user_preference_temperature_unit` is absent
the tool behaves exactly as if the preference were `"Celsius"` (the
returned result is the same as with the key explicitly set); in
particular "New York" under such a state succeeds with a report
containing "25°C". -/
theorem claim_C4 :
    (∀ (city : String) (state : StateMap),
      StateMap.get state "user_preference_temperature_unit" = none →
      (get_weather_stateful city state).1 =
        (get_weather_stateful city
          (StateMap.set state "user_preference_temperature_unit" "Celsius")).1) ∧
    ((get_weather_stateful "New York" []).1.status = "success" ∧
      ∃ r, (get_weather_stateful "New York" []).1.report = some r ∧ containsSub r "25°C") := by
  constructor
  · intro city state hnone
    have h1 : StateMap.getD state "user_preference_temperature_unit" "Celsius" = "Celsius" := by
      simp [StateMap.getD, hnone]
    have h2 : StateMap.getD (StateMap.set state "user_preference_temperature_unit" "Celsius")
        "user_preference_temperature_unit" "Celsius" = "Celsius" := by
      simp [StateMap.getD, StateMap.get_set_self]
    cases hd : dbFind mock_weather_db (cityNormalized city) with
    | none =>
        rw [gws_notfound city state hd, gws_notfound city _ hd]
    | some d =>
        have hne1 : StateMap.getD state "user_preference_temperature_unit" "Celsius" ≠
            "Fahrenheit" := by
          rw [h1]
          decide
        have hne2 : StateMap.getD (StateMap.set state "user_preference_temperature_unit" "Celsius")
            "user_preference_temperature_unit" "Celsius" ≠ "Fahrenheit" := by
          rw [h2]
          decide
        rw [gws_found_c city state d hd hne1, gws_found_c city _ d hd hne2]
  · refine ⟨by decide, "The weather in New york is sunny with a temperature of 25°C.", by decide,
      "The weather in New york is sunny with a temperature of ", ".", by decide⟩

/-- Claim C4 witness: the absent-key case at the concrete city "Tokyo"
with the empty state. -/
theorem claim_C4_witness :
    (get_weather_stateful "Tokyo" []).1 =
      (get_weather_stateful "Tokyo"
        (StateMap.set [] "user_preference_temperature_unit" "Celsius")).1 :=
  claim_C4.1 "Tokyo" [] (by decide)

/-- Claim C5: the result's status field is exactly `"success"` or exactly
`"error"`; a success carries a report, and an error carries exactly the
message "Sorry, I don't have weather information for '<city>'." with the
original input embedded. -/
theorem claim_C5 (city : String) (state : StateMap) :
    ((get_weather_stateful city state).1.status = "success" ∨
      (get_weather_stateful city state).1.status = "error") ∧
    ((get_weather_stateful city state).1.status = "success" →
      ∃ r, (get_weather_stateful city state).1.report = some r) ∧
    ((get_weather_stateful city state).1.status = "error" →
      (get_weather_stateful city state).1.error_message =
        some ("Sorry, I don\x27t have weather information for \x27" ++ city ++ "\x27.")) := by
  cases hd : dbFind mock_weather_db (cityNormalized city) with
  | none =>
      rw [gws_notfound city state hd]
      refine ⟨Or.inr rfl, ?_, fun _ => rfl⟩
      intro h
      exact absurd h (by simp)
  | some d =>
      obtain ⟨hs, -⟩ := gws_status_found city state d hd
      by_cases hu : StateMap.getD state "user_preference_temperature_unit" "Celsius" = "Fahrenheit"
      · rw [gws_found_f city state d hd hu]
        refine ⟨Or.inl rfl, fun _ => ⟨_, rfl⟩, ?_⟩
        intro h
        exact absurd h (by simp)
      · rw [gws_found_c city state d hd hu]
        refine ⟨Or.inl rfl, fun _ => ⟨_, rfl⟩, ?_⟩
        intro h
        exact absurd h (by simp)

/-- Claim C5 witness: the exact error message for the unknown city
"Paris". -/
theorem claim_C5_witness :
    (get_weather_stateful "Paris" []).1.error_message =
      some ("Sorry, I don\x27t have weather information for \x27" ++ "Paris" ++ "\x27.") :=
  (claim_C5 "Paris" []).2.2 (by decide)

/-- Claim C6: on the success path the state after the call is exactly the
input state with the original (non-normalized) city written under
`last_city_checked_stateful`; that key now reads the city, and every
other key reads as before. -/
theorem claim_C6 (city : String) (state : StateMap) (d : WeatherData)
    (h : dbFind mock_weather_db (cityNormalized city) = some d) :
    (get_weather_stateful city state).2 =
      StateMap.set state "last_city_checked_stateful" city ∧
    StateMap.get (get_weather_stateful city state).2 "last_city_checked_stateful" = some city ∧
    ∀ k, k ≠ "last_city_checked_stateful" →
      StateMap.get (get_weather_stateful city state).2 k = StateMap.get state k := by
  obtain ⟨-, hst⟩ := gws_status_found city state d h
  refine ⟨hst, ?_, ?_⟩
  · rw [hst]
    exact StateMap.get_set_self state "last_city_checked_stateful" city
  · intro k hk
    rw [hst]
    exact StateMap.get_set_ne state "last_city_checked_stateful" k city hk

/-- Claim C6 witness: after a successful "London" lookup the pre-existing
unit-preference binding is untouched and the last-city key reads
"London". -/
theorem claim_C6_witness :
    StateMap.get (get_weather_stateful "London"
      [("user_preference_temperature_unit", "Fahrenheit")]).2 "last_city_checked_stateful" =
      some "London" ∧
    StateMap.get (get_weather_stateful "London"
      [("user_preference_temperature_unit", "Fahrenheit")]).2 "user_preference_temperature_unit" =
      StateMap.get [("user_preference_temperature_unit", "Fahrenheit")]
        "user_preference_temperature_unit" :=
  ⟨(claim_C6 "London" [("user_preference_temperature_unit", "Fahrenheit")]
      ⟨15, "cloudy"⟩ (by decide)).2.1,
   (claim_C6 "London" [("user_preference_temperature_unit", "Fahrenheit")]
      ⟨15, "cloudy"⟩ (by decide)).2.2 "user_preference_temperature_unit" (by decide)⟩

/-- Claim C7: two consecutive "London" calls on the same state produce
the same report text, `last_city_checked_stateful` reads "London" after
either call, and the second call leaves the state unchanged. -/
theorem claim_C7 (state : StateMap) :
    (get_weather_stateful "London" state).1.report =
      (get_weather_stateful "London" (get_weather_stateful "London" state).2).1.report ∧
    StateMap.get (get_weather_stateful "London" state).2 "last_city_checked_stateful" =
      some "London" ∧
    StateMap.get (get_weather_stateful "London"
      (get_weather_stateful "London" state).2).2 "last_city_checked_stateful" = some "London" ∧
    (get_weather_stateful "London" (get_weather_stateful "London" state).2).2 =
      (get_weather_stateful "London" state).2 := by
  have h : dbFind mock_weather_db (cityNormalized "London") = some ⟨15, "cloudy"⟩ := by decide
  obtain ⟨-, hst1⟩ := gws_status_found "London" state ⟨15, "cloudy"⟩ h
  obtain ⟨-, hst2⟩ := gws_status_found "London"
    (StateMap.set state "last_city_checked_stateful" "London") ⟨15, "cloudy"⟩ h
  have hpref : StateMap.getD (StateMap.set state "last_city_checked_stateful" "London")
      "user_preference_temperature_unit" "Celsius" =
      StateMap.getD state "user_preference_temperature_unit" "Celsius" :=
    StateMap.getD_set_ne state "last_city_checked_stateful" "user_preference_temperature_unit"
      "London" "Celsius" (by decide)
  refine ⟨?_, ?_, ?_, ?_⟩
  · by_cases hu : StateMap.getD state "user_preference_temperature_unit" "Celsius" = "Fahrenheit"
    · rw [hst1, gws_found_f "London" state ⟨15, "cloudy"⟩ h hu,
        gws_found_f "London" _ ⟨15, "cloudy"⟩ h (hpref.trans hu)]
    · rw [hst1, gws_found_c "London" state ⟨15, "cloudy"⟩ h hu,
        gws_found_c "London" _ ⟨15, "cloudy"⟩ h (fun hc => hu (hpref.symm.trans hc))]
  · rw [hst1]
    exact StateMap.get_set_self state "last_city_checked_stateful" "London"
  · rw [hst1, hst2]
    exact StateMap.get_set_self _ "last_city_checked_stateful" "London"
  · rw [hst1, hst2]
    exact StateMap.set_set_self state "last_city_checked_stateful" "London"

/-- Claim C7 witness: the repeated-call report equality at the empty
state. -/
theorem claim_C7_witness :
    (get_weather_stateful "London" []).1.report =
      (get_weather_stateful "London" (get_weather_stateful "London" []).2).1.report :=
  (claim_C7 []).1

/-- Claim C8: the success/error status is a function of the normalized
key only — two city strings with the same normalization share their
status under any fixed state. -/
theorem claim_C8 (c1 c2 : String) (state : StateMap)
    (h : cityNormalized c1 = cityNormalized c2) :
    (get_weather_stateful c1 state).1.status = (get_weather_stateful c2 state).1.status := by
  cases hd : dbFind mock_weather_db (cityNormalized c1) with
  | none =>
      have hd2 : dbFind mock_weather_db (cityNormalized c2) = none := by
        rw [← h]
        exact hd
      obtain ⟨hs1, -⟩ := gws_status_notfound c1 state hd
      obtain ⟨hs2, -⟩ := gws_status_notfound c2 state hd2
      rw [hs1, hs2]
  | some d =>
      have hd2 : dbFind mock_weather_db (cityNormalized c2) = some d := by
        rw [← h]
        exact hd
      obtain ⟨hs1, -⟩ := gws_status_found c1 state d hd
      obtain ⟨hs2, -⟩ := gws_status_found c2 state d hd2
      rw [hs1, hs2]

/-- Claim C8 witness: "New York" and "NewYork" normalize alike and both
succeed. -/
theorem claim_C8_witness :
    (get_weather_stateful "New York" []).1.status = (get_weather_stateful "NewYork" []).1.status ∧
    (get_weather_stateful "New York" []).1.status = "success" :=
  ⟨claim_C8 "New York" "NewYork" [] (by decide), by decide⟩

/-- Claim C9: the tool is total — the embedding is a Lean function, so
every input (including the empty string and non-ASCII text) yields a
structured result: either the success shape together with the
last-city-checked write, or the error shape with the state unchanged.  An
unmatched key always lands in the error branch. -/
theorem claim_C9 (city : String) (state : StateMap) :
    (∃ r, (get_weather_stateful city state).1 =
        { status := "success", report := some r, error_message := none } ∧
      (get_weather_stateful city state).2 =
        StateMap.set state "last_city_checked_stateful" city) ∨
    ((get_weather_stateful city state).1 =
        { status := "error", report := none,
          error_message :=
            some ("Sorry, I don\x27t have weather information for \x27" ++ city ++ "\x27.") } ∧
      (get_weather_stateful city state).2 = state) := by
  cases hd : dbFind mock_weather_db (cityNormalized city) with
  | none =>
      right
      rw [gws_notfound city state hd]
      exact ⟨rfl, rfl⟩
  | some d =>
      left
      by_cases hu : StateMap.getD state "user_preference_temperature_unit" "Celsius" = "Fahrenheit"
      · rw [gws_found_f city state d hd hu]
        exact ⟨_, rfl, rfl⟩
      · rw [gws_found_c city state d hd hu]
        exact ⟨_, rfl, rfl⟩

/-- Claim C9 witness: the two-branch shape at the empty city string and
empty state. -/
theorem claim_C9_witness :
    (∃ r, (get_weather_stateful "" []).1 =
        { status := "success", report := some r, error_message := none } ∧
      (get_weather_stateful "" []).2 =
        StateMap.set [] "last_city_checked_stateful" "") ∨
    ((get_weather_stateful "" []).1 =
        { status := "error", report := none,
          error_message :=
            some ("Sorry, I don\x27t have weather information for \x27" ++ "" ++ "\x27.") } ∧
      (get_weather_stateful "" []).2 = []) :=
  claim_C9 "" []

/-- Claim C10: the unit comparison is an exact, case-sensitive match
against `"Fahrenheit"`: any other stored value — lower-case
"fahrenheit", "F", or a value outside the declared enum — flows to the
Celsius branch and still produces the normal `°C` report, with no
validation or rejection. -/
theorem claim_C10 (city : String) (state : StateMap) (u : String) (d : WeatherData)
    (hu : StateMap.get state "user_preference_temperature_unit" = some u)
    (hne : u ≠ "Fahrenheit")
    (h : dbFind mock_weather_db (cityNormalized city) = some d) :
    (get_weather_stateful city state).1.report =
      some ("The weather in " ++ pyCapitalize city ++ " is " ++ d.condition ++
        " with a temperature of " ++ formatTenths (celsiusTenths d.temp_c) ++ "°C" ++ ".") := by
  have hgd : StateMap.getD state "user_preference_temperature_unit" "Celsius" = u := by
    simp [StateMap.getD, hu]
  rw [gws_found_c city state d h (by rw [hgd]; exact hne)]

/-- Claim C10 witness: the out-of-enum value "fahrenheit" (lower-case)
leaves "Tokyo" reported in Celsius. -/
theorem claim_C10_witness :
    (get_weather_stateful "Tokyo" [("user_preference_temperature_unit", "fahrenheit")]).1.report =
      some ("The weather in " ++ pyCapitalize "Tokyo" ++ " is " ++ "light rain" ++
        " with a temperature of " ++ formatTenths (celsiusTenths 18) ++ "°C" ++ ".") :=
  claim_C10 "Tokyo" [("user_preference_temperature_unit", "fahrenheit")] "fahrenheit"
    ⟨18, "light rain"⟩ (by decide) (by decide) (by decide)

end WeatherAgent
